import Mathlib

/-!
Verification of the payroll record-keeper (src/app.py) against its
specification. Monetary values are modelled as exact rationals (ℚ);
calendar dates as (year, month, day) triples ordered lexicographically,
matching how the runtime compares date values. Fallible handlers return
Except values.
-/

/-- A calendar date, compared lexicographically on (year, month, day)
exactly as the runtime date type does. -/
structure Date where
  year : ℕ
  month : ℕ
  day : ℕ
deriving DecidableEq

/-- Lexicographic order on dates, as the runtime compares date values. -/
def Date.le (a b : Date) : Bool :=
  decide (a.year < b.year ∨ (a.year = b.year ∧
    (a.month < b.month ∨ (a.month = b.month ∧ a.day ≤ b.day))))

/-- Strict lexicographic comparison of (month, day) pairs, embedding the
tuple comparison `(today.month, today.day) < (dob.month, dob.day)` used in
the Employee.age property (src/app.py lines 50-54). -/
def monthDayLt (m1 d1 m2 d2 : ℕ) : Bool :=
  decide (m1 < m2 ∨ (m1 = m2 ∧ d1 < d2))

/-- Employee record (src/app.py lines 30-55). Only the fields the claims
depend on are embedded: the unique employee code and the optional date of
birth; the remaining identity fields are plain stored strings with no
logic attached. -/
structure Employee where
  employee_id_code : String
  date_of_birth : Option Date
deriving DecidableEq

/-- The `age` property (src/app.py lines 46-55): years between
date_of_birth and today, lowered by one when the birthday has not yet
occurred this year; absent when date_of_birth is unset. -/
def Employee.age (today : Date) (e : Employee) : Option ℤ :=
  match e.date_of_birth with
  | none => none
  | some dob =>
      some ((today.year : ℤ) - (dob.year : ℤ) -
        (if monthDayLt today.month today.day dob.month dob.day then 1 else 0))

/-- Payslip record (src/app.py lines 90-107). The auto-assigned primary
key and the server-clock created_at timestamp carry no logic and are
omitted; the unused stray date_of_birth column likewise. -/
structure Payslip where
  employee_id : ℕ
  period_start : Date
  period_end : Date
  basic_pay : ℚ
  overtime_pay : ℚ
  allowances : ℚ
  tax : ℚ
  nis : ℚ
  other_deductions : ℚ
  net_pay : ℚ
  hours_worked : ℚ
  rate_per_hour : ℚ
  created_by : ℕ
deriving DecidableEq

/-- Floor of a rational as an integer: Euclidean division of the
numerator by the (positive) denominator. -/
def ratFloor (q : ℚ) : ℤ :=
  Int.ediv q.num (q.den : ℤ)

/-- Round a rational to the nearest integer, ties to even — the rounding
mode of the runtime round builtin. -/
def roundHalfEven (q : ℚ) : ℤ :=
  let f := ratFloor q
  let frac := q - (f : ℚ)
  if frac < 1 / 2 then f
  else if 1 / 2 < frac then f + 1
  else if f % 2 = 0 then f else f + 1

/-- round(x, 2): round to two decimal places, ties to even. -/
def round2 (q : ℚ) : ℚ :=
  (roundHalfEven (q * 100) : ℚ) / 100

/-- Value of a list of decimal digit characters. -/
def digitsVal (l : List Char) : ℕ :=
  l.foldl (fun n c => 10 * n + (c.toNat - 48)) 0

/-- Unsigned decimal literal: digits, optionally a point and more digits,
with at least one digit present overall. -/
def pyFloatDigits (l : List Char) : Option ℚ :=
  let ip := l.takeWhile Char.isDigit
  match l.dropWhile Char.isDigit with
  | [] => if ip.isEmpty then none else some (digitsVal ip)
  | '.' :: fp =>
      if fp.all Char.isDigit && !(ip.isEmpty && fp.isEmpty) then
        some ((digitsVal ip : ℚ) + (digitsVal fp : ℚ) / ((10 ^ fp.length : ℕ) : ℚ))
      else none
  | _ => none

/-- The float(text) conversion on the plain decimal subset the forms use:
optional sign then a decimal literal; any other text is a conversion
error (none). Exponent, infinity, nan and whitespace forms accepted by
the runtime are outside the modelled subset; no claim depends on them. -/
def pyFloat (s : String) : Option ℚ :=
  match s.toList with
  | [] => none
  | '-' :: rest => (pyFloatDigits rest).map (fun q => -q)
  | '+' :: rest => pyFloatDigits rest
  | l => pyFloatDigits l

/-- parse_float (src/app.py lines 114-118): float(form.get(name, 0) or 0)
under a try/except returning 0. An absent field gives the default 0; an
empty string is falsy, so `or 0` turns it into 0; text that float rejects
raises inside the try and yields 0. -/
def parse_float (form : List (String × String)) (name : String) : ℚ :=
  match form.lookup name with
  | none => 0
  | some s => if s = "" then 0 else (pyFloat s).getD 0

/-- compute_payroll (src/app.py lines 121-139). The employee argument is
passed as its `age` property value (an optional integer), the only part
of the record the function reads; the spec contract likewise takes
`employee_age : optional int`. Returns (gross, nis, tax, net). -/
def compute_payroll (age : Option ℤ)
    (basic overtime allowances hours_worked rate_per_hour : ℚ) :
    ℚ × ℚ × ℚ × ℚ :=
  let hourly_total := hours_worked * rate_per_hour
  let gross := basic + overtime + allowances + hourly_total
  let nis : ℚ :=
    match age with
    | some a => if a < 60 then round2 (gross * (56 / 1000)) else 0
    | none => 0
  let tax : ℚ := if 130000 < gross then (gross - 130000) * (28 / 100) else 0
  let net := gross - (nis + tax)
  (gross, nis, tax, net)

/-- Year-to-date totals dictionary (src/app.py lines 149-152). -/
structure YtdTotals where
  basic_pay : ℚ
  overtime_pay : ℚ
  allowances : ℚ
  tax : ℚ
  nis : ℚ
  other_deductions : ℚ
  net_pay : ℚ
deriving DecidableEq

/-- The all-zero totals the aggregation loop starts from. -/
def ytd_zero : YtdTotals := ⟨0, 0, 0, 0, 0, 0, 0⟩

/-- One iteration of the accumulation loop (src/app.py lines 153-160). -/
def ytdStep (t : YtdTotals) (s : Payslip) : YtdTotals :=
  { basic_pay := t.basic_pay + s.basic_pay
    overtime_pay := t.overtime_pay + s.overtime_pay
    allowances := t.allowances + s.allowances
    tax := t.tax + s.tax
    nis := t.nis + s.nis
    other_deductions := t.other_deductions + s.other_deductions
    net_pay := t.net_pay + s.net_pay }

/-- The query filter of ytd_for_employee (src/app.py lines 144-148):
same employee, and period_end between January 1 of the query year and the
query period_end, both inclusive. -/
def ytd_pred (employee_id : ℕ) (period_end : Date) (s : Payslip) : Bool :=
  s.employee_id == employee_id &&
  Date.le ⟨period_end.year, 1, 1⟩ s.period_end &&
  Date.le s.period_end period_end

/-- ytd_for_employee (src/app.py lines 142-161): filter the stored
payslips by the window query, then accumulate field-wise sums. -/
def ytd_for_employee (db : List Payslip) (employee_id : ℕ)
    (period_end : Date) : YtdTotals :=
  (db.filter (ytd_pred employee_id period_end)).foldl ytdStep ytd_zero

/-- payslip_new POST branch (src/app.py lines 224-257): numeric fields
are read through parse_float, the period dates are the parsed submitted
dates, the derived amounts come from compute_payroll on the employee age,
and other_deductions is stored as the literal 0. -/
def payslip_new (today : Date) (employee_id : ℕ) (employee : Employee)
    (form : List (String × String)) (period_start period_end : Date)
    (created_by : ℕ) : Payslip :=
  let basic := parse_float form "basic_pay"
  let overtime := parse_float form "overtime_pay"
  let allowances := parse_float form "allowances"
  let hours_worked := parse_float form "hours_worked"
  let rate_per_hour := parse_float form "rate_per_hour"
  let r := compute_payroll (Employee.age today employee)
    basic overtime allowances hours_worked rate_per_hour
  { employee_id := employee_id
    period_start := period_start
    period_end := period_end
    basic_pay := basic
    overtime_pay := overtime
    allowances := allowances
    tax := r.2.2.1
    nis := r.2.1
    other_deductions := 0
    net_pay := r.2.2.2
    hours_worked := hours_worked
    rate_per_hour := rate_per_hour
    created_by := created_by }

/-- edit_payslip POST branch (src/app.py lines 266-281): every monetary
field is overwritten with the parse_float of the submitted form value and
the period dates with the parsed submitted dates; nothing is recomputed. -/
def edit_payslip (p : Payslip) (form : List (String × String))
    (period_start period_end : Date) : Payslip :=
  { p with
    basic_pay := parse_float form "basic_pay"
    overtime_pay := parse_float form "overtime_pay"
    allowances := parse_float form "allowances"
    hours_worked := parse_float form "hours_worked"
    rate_per_hour := parse_float form "rate_per_hour"
    tax := parse_float form "tax"
    nis := parse_float form "nis"
    other_deductions := parse_float form "other_deductions"
    net_pay := parse_float form "net_pay"
    period_start := period_start
    period_end := period_end }

/-- Failure outcomes a handler can surface. -/
inductive PyErr where
  | nameError (n : String)
  | badRequest (key : String)
  | integrityError
deriving DecidableEq

/-- employee_new POST branch (src/app.py lines 200-218). The keyword
arguments of the Employee constructor are evaluated left to right:
the six bracketed form accesses raise a bad-request failure when the key
is absent; once they all succeed, the final argument `date_of_birth=dob`
reads the name dob, which is bound nowhere in employee_new, so the
construction raises an unbound-name failure before db.session.add or
commit can run. The success constructor is therefore unreachable. -/
def employee_new (db : List Employee) (form : List (String × String)) :
    Except PyErr (List Employee) :=
  match form.lookup "employee_id_code" with
  | none => Except.error (PyErr.badRequest "employee_id_code")
  | some _ =>
  match form.lookup "first_name" with
  | none => Except.error (PyErr.badRequest "first_name")
  | some _ =>
  match form.lookup "last_name" with
  | none => Except.error (PyErr.badRequest "last_name")
  | some _ =>
  match form.lookup "department" with
  | none => Except.error (PyErr.badRequest "department")
  | some _ =>
  match form.lookup "position" with
  | none => Except.error (PyErr.badRequest "position")
  | some _ =>
  match form.lookup "email" with
  | none => Except.error (PyErr.badRequest "email")
  | some _ => Except.error (PyErr.nameError "dob")

/-! ## Claims -/

/-- C1: for every employee age and non-negative numeric inputs,
compute_payroll returns a social-insurance deduction of
round(gross * 0.056, 2) when the age is known and strictly less than 60,
and a deduction of exactly 0 when the age is unknown or is 60 or more. -/
theorem C1_social_insurance (age : Option ℤ) (b ot al hw rp : ℚ)
    (hb : 0 ≤ b) (hot : 0 ≤ ot) (hal : 0 ≤ al) (hhw : 0 ≤ hw) (hrp : 0 ≤ rp) :
    (∀ a : ℤ, age = some a → a < 60 →
      (compute_payroll age b ot al hw rp).2.1 =
        round2 ((compute_payroll age b ot al hw rp).1 * (56 / 1000))) ∧
    (age = none → (compute_payroll age b ot al hw rp).2.1 = 0) ∧
    (∀ a : ℤ, age = some a → 60 ≤ a →
      (compute_payroll age b ot al hw rp).2.1 = 0) := by
  refine ⟨?_, ?_, ?_⟩
  · rintro a rfl ha
    simp [compute_payroll, ha]
  · rintro rfl
    simp [compute_payroll]
  · rintro a rfl ha
    simp [compute_payroll, not_lt.mpr ha]

/-- Witness for C1 at age 30 with basic pay 1000 and all other inputs 0. -/
theorem C1_social_insurance_witness :
    (compute_payroll (some 30) 1000 0 0 0 0).2.1 =
      round2 ((compute_payroll (some 30) 1000 0 0 0 0).1 * (56 / 1000)) :=
  (C1_social_insurance (some 30) 1000 0 0 0 0 (by norm_num) (by norm_num)
    (by norm_num) (by norm_num) (by norm_num)).1 30 rfl (by norm_num)

/-- C2: for every numeric input, the tax computed by compute_payroll is 0
when gross is at most 130000 and exactly (gross - 130000) * 0.28 when
gross exceeds 130000, with threshold and rate fixed. -/
theorem C2_tax_bracket (age : Option ℤ) (b ot al hw rp : ℚ) :
    (compute_payroll age b ot al hw rp).2.2.1 =
      if 130000 < (compute_payroll age b ot al hw rp).1 then
        ((compute_payroll age b ot al hw rp).1 - 130000) * (28 / 100)
      else 0 := rfl

/-- C3: compute_payroll returns
gross = basic + overtime + allowances + hours_worked * rate_per_hour and
net = gross - (social insurance + tax), with no floor at zero: whenever
the deductions exceed gross the returned net is negative. -/
theorem C3_gross_net (age : Option ℤ) (b ot al hw rp : ℚ) :
    (compute_payroll age b ot al hw rp).1 = b + ot + al + hw * rp ∧
    (compute_payroll age b ot al hw rp).2.2.2 =
      (compute_payroll age b ot al hw rp).1 -
        ((compute_payroll age b ot al hw rp).2.1 +
          (compute_payroll age b ot al hw rp).2.2.1) ∧
    ((compute_payroll age b ot al hw rp).1 <
        (compute_payroll age b ot al hw rp).2.1 +
          (compute_payroll age b ot al hw rp).2.2.1 →
      (compute_payroll age b ot al hw rp).2.2.2 < 0) := by
  refine ⟨rfl, rfl, ?_⟩
  intro h
  rw [show (compute_payroll age b ot al hw rp).2.2.2 =
      (compute_payroll age b ot al hw rp).1 -
        ((compute_payroll age b ot al hw rp).2.1 +
          (compute_payroll age b ot al hw rp).2.2.1) from rfl]
  exact sub_neg.mpr h

/-- Witness for C3: with unknown age and basic pay -100 the deductions
(0) exceed gross (-100) and the returned net is negative. -/
theorem C3_gross_net_witness :
    (compute_payroll none (-100) 0 0 0 0).2.2.2 < 0 :=
  (C3_gross_net none (-100) 0 0 0 0).2.2 (by norm_num [compute_payroll])

/-- Field-wise characterisation of the accumulation loop of
ytd_for_employee as list sums. -/
theorem foldl_ytdStep_eq (l : List Payslip) (t : YtdTotals) :
    List.foldl ytdStep t l =
      ⟨t.basic_pay + (l.map Payslip.basic_pay).sum,
       t.overtime_pay + (l.map Payslip.overtime_pay).sum,
       t.allowances + (l.map Payslip.allowances).sum,
       t.tax + (l.map Payslip.tax).sum,
       t.nis + (l.map Payslip.nis).sum,
       t.other_deductions + (l.map Payslip.other_deductions).sum,
       t.net_pay + (l.map Payslip.net_pay).sum⟩ := by
  induction l generalizing t with
  | nil => obtain ⟨a, b, c, d, e, f, g⟩ := t; simp
  | cons s tl ih =>
      rw [List.foldl_cons, ih]
      obtain ⟨a, b, c, d, e, f, g⟩ := t
      simp [ytdStep, add_assoc]

/-- C4: ytd_for_employee returns, independently for each monetary field,
the sum over exactly the stored payslips of that employee whose
period_end lies in [January 1 of the query year, the query period_end],
and all-zero totals when no payslip falls in the window. -/
theorem C4_ytd_window_sums (db : List Payslip) (eid : ℕ) (pe : Date) :
    ((ytd_for_employee db eid pe).basic_pay =
        ((db.filter (ytd_pred eid pe)).map Payslip.basic_pay).sum ∧
     (ytd_for_employee db eid pe).overtime_pay =
        ((db.filter (ytd_pred eid pe)).map Payslip.overtime_pay).sum ∧
     (ytd_for_employee db eid pe).allowances =
        ((db.filter (ytd_pred eid pe)).map Payslip.allowances).sum ∧
     (ytd_for_employee db eid pe).tax =
        ((db.filter (ytd_pred eid pe)).map Payslip.tax).sum ∧
     (ytd_for_employee db eid pe).nis =
        ((db.filter (ytd_pred eid pe)).map Payslip.nis).sum ∧
     (ytd_for_employee db eid pe).other_deductions =
        ((db.filter (ytd_pred eid pe)).map Payslip.other_deductions).sum ∧
     (ytd_for_employee db eid pe).net_pay =
        ((db.filter (ytd_pred eid pe)).map Payslip.net_pay).sum) ∧
    (db.filter (ytd_pred eid pe) = [] →
      ytd_for_employee db eid pe = ytd_zero) := by
  refine ⟨⟨?_, ?_, ?_, ?_, ?_, ?_, ?_⟩, fun he => ?_⟩ <;>
    simp [ytd_for_employee, foldl_ytdStep_eq, ytd_zero, *]

/-- Witness for C4: an empty payslip store has an empty window and the
aggregation returns the all-zero totals. -/
theorem C4_ytd_window_sums_witness :
    ytd_for_employee [] 1 ⟨2025, 1, 31⟩ = ytd_zero :=
  (C4_ytd_window_sums [] 1 ⟨2025, 1, 31⟩).2 rfl

/-- C5 counterexample: submitting period_start 2024-02-01 and period_end
2024-01-01 to payslip creation stores the dates verbatim, so the stored
payslip violates period_start ≤ period_end — no handler validates the
pair, refuting the claimed invariant. -/
theorem C5_start_le_end_counterexample :
    (payslip_new ⟨2025, 10, 12⟩ 1 ⟨"E001", none⟩ [("basic_pay", "1000")]
        ⟨2024, 2, 1⟩ ⟨2024, 1, 1⟩ 1).period_start = ⟨2024, 2, 1⟩ ∧
    (payslip_new ⟨2025, 10, 12⟩ 1 ⟨"E001", none⟩ [("basic_pay", "1000")]
        ⟨2024, 2, 1⟩ ⟨2024, 1, 1⟩ 1).period_end = ⟨2024, 1, 1⟩ ∧
    Date.le
      (payslip_new ⟨2025, 10, 12⟩ 1 ⟨"E001", none⟩ [("basic_pay", "1000")]
        ⟨2024, 2, 1⟩ ⟨2024, 1, 1⟩ 1).period_start
      (payslip_new ⟨2025, 10, 12⟩ 1 ⟨"E001", none⟩ [("basic_pay", "1000")]
        ⟨2024, 2, 1⟩ ⟨2024, 1, 1⟩ 1).period_end = false :=
  ⟨rfl, rfl, by decide⟩

/-- C5 (amended): payslip creation and payslip edit store exactly the
submitted period dates, with no start ≤ end validation, so a stored
payslip satisfies period_start ≤ period_end only when the submitted pair
already does. -/
theorem C5_dates_stored_as_submitted (today : Date) (eid : ℕ)
    (emp : Employee) (form : List (String × String)) (ps pe : Date)
    (cb : ℕ) (p : Payslip) :
    ((payslip_new today eid emp form ps pe cb).period_start = ps ∧
     (payslip_new today eid emp form ps pe cb).period_end = pe) ∧
    ((edit_payslip p form ps pe).period_start = ps ∧
     (edit_payslip p form ps pe).period_end = pe) :=
  ⟨⟨rfl, rfl⟩, ⟨rfl, rfl⟩⟩

/-- C6: a payslip edit overwrites every monetary field and both period
dates with exactly the submitted (parsed) values and recomputes nothing;
consequently there are inputs for which the stored tax, social-insurance
and net values all differ from what compute_payroll would produce from
the stored raw fields. -/
theorem C6_edit_overwrites_without_recompute :
    (∀ (p : Payslip) (form : List (String × String)) (ps pe : Date),
      (edit_payslip p form ps pe).basic_pay = parse_float form "basic_pay" ∧
      (edit_payslip p form ps pe).overtime_pay = parse_float form "overtime_pay" ∧
      (edit_payslip p form ps pe).allowances = parse_float form "allowances" ∧
      (edit_payslip p form ps pe).hours_worked = parse_float form "hours_worked" ∧
      (edit_payslip p form ps pe).rate_per_hour = parse_float form "rate_per_hour" ∧
      (edit_payslip p form ps pe).tax = parse_float form "tax" ∧
      (edit_payslip p form ps pe).nis = parse_float form "nis" ∧
      (edit_payslip p form ps pe).other_deductions = parse_float form "other_deductions" ∧
      (edit_payslip p form ps pe).net_pay = parse_float form "net_pay" ∧
      (edit_payslip p form ps pe).period_start = ps ∧
      (edit_payslip p form ps pe).period_end = pe) ∧
    (∃ (age : Option ℤ) (p : Payslip) (form : List (String × String))
        (ps pe : Date),
      (edit_payslip p form ps pe).tax ≠
        (compute_payroll age (edit_payslip p form ps pe).basic_pay
          (edit_payslip p form ps pe).overtime_pay
          (edit_payslip p form ps pe).allowances
          (edit_payslip p form ps pe).hours_worked
          (edit_payslip p form ps pe).rate_per_hour).2.2.1 ∧
      (edit_payslip p form ps pe).nis ≠
        (compute_payroll age (edit_payslip p form ps pe).basic_pay
          (edit_payslip p form ps pe).overtime_pay
          (edit_payslip p form ps pe).allowances
          (edit_payslip p form ps pe).hours_worked
          (edit_payslip p form ps pe).rate_per_hour).2.1 ∧
      (edit_payslip p form ps pe).net_pay ≠
        (compute_payroll age (edit_payslip p form ps pe).basic_pay
          (edit_payslip p form ps pe).overtime_pay
          (edit_payslip p form ps pe).allowances
          (edit_payslip p form ps pe).hours_worked
          (edit_payslip p form ps pe).rate_per_hour).2.2.2) := by
  constructor
  · intro p form ps pe
    exact ⟨rfl, rfl, rfl, rfl, rfl, rfl, rfl, rfl, rfl, rfl, rfl⟩
  · refine ⟨some 65, ⟨1, ⟨2024, 1, 1⟩, ⟨2024, 1, 31⟩, 0, 0, 0, 0, 0, 0, 0, 0, 0, 1⟩,
      [("basic_pay", "1000"), ("tax", "999"), ("nis", "999"), ("net_pay", "999")],
      ⟨2024, 1, 1⟩, ⟨2024, 1, 31⟩, ?_⟩
    have hE : edit_payslip
        ⟨1, ⟨2024, 1, 1⟩, ⟨2024, 1, 31⟩, 0, 0, 0, 0, 0, 0, 0, 0, 0, 1⟩
        [("basic_pay", "1000"), ("tax", "999"), ("nis", "999"), ("net_pay", "999")]
        ⟨2024, 1, 1⟩ ⟨2024, 1, 31⟩ =
        ⟨1, ⟨2024, 1, 1⟩, ⟨2024, 1, 31⟩, 1000, 0, 0, 999, 999, 0, 999, 0, 0, 1⟩ := by
      decide
    rw [hE]
    refine ⟨?_, ?_, ?_⟩ <;> norm_num [compute_payroll]

/-- C7: at the failing input — a well-formed creation submission whose
employee code duplicates the one already stored — employee_new fails with
the unbound-name error on dob, not with an integrity failure from the
unique-code constraint, and no state is ever returned, so no new record
exists afterwards. -/
theorem C7_duplicate_code_failure_mode :
    employee_new [⟨"E001", none⟩]
        [("employee_id_code", "E001"), ("first_name", "A"), ("last_name", "B"),
         ("department", "D"), ("position", "P"), ("email", "a@b.c")] =
      Except.error (PyErr.nameError "dob") ∧
    (Except.error (PyErr.nameError "dob") : Except PyErr (List Employee)) ≠
      Except.error PyErr.integrityError ∧
    ∀ db2 : List Employee,
      employee_new [⟨"E001", none⟩]
          [("employee_id_code", "E001"), ("first_name", "A"), ("last_name", "B"),
           ("department", "D"), ("position", "P"), ("email", "a@b.c")] ≠
        Except.ok db2 := by
  refine ⟨rfl, by simp, fun db2 h => ?_⟩
  rw [show employee_new [⟨"E001", none⟩]
      [("employee_id_code", "E001"), ("first_name", "A"), ("last_name", "B"),
       ("department", "D"), ("position", "P"), ("email", "a@b.c")] =
      Except.error (PyErr.nameError "dob") from rfl] at h
  exact Except.noConfusion h

/-- C8: parse_float is a total function that returns 0 when the field is
absent, 0 when the field is the empty string, 0 when the field text is
rejected by the float conversion, and the parsed numeric value otherwise. -/
theorem C8_parse_float_total (form : List (String × String)) (name : String) :
    (form.lookup name = none → parse_float form name = 0) ∧
    (form.lookup name = some "" → parse_float form name = 0) ∧
    (∀ s, form.lookup name = some s → pyFloat s = none →
      parse_float form name = 0) ∧
    (∀ s q, form.lookup name = some s → pyFloat s = some q →
      parse_float form name = q) := by
  refine ⟨fun h => ?_, fun h => ?_, fun s hs hn => ?_, fun s q hs hq => ?_⟩
  · unfold parse_float; rw [h]
  · unfold parse_float; rw [h]; simp
  · unfold parse_float; rw [hs]
    by_cases he : s = ""
    · simp [he]
    · simp [he, hn]
  · unfold parse_float; rw [hs]
    have he : s ≠ "" := by
      rintro rfl
      rw [show pyFloat "" = none from rfl] at hq
      exact Option.noConfusion hq
    simp [he, hq]

/-- Witness for C8 on the four branches: absent field, empty field,
non-numeric field, and numeric field. -/
theorem C8_parse_float_total_witness :
    parse_float [("b", "abc")] "a" = 0 ∧
    parse_float [("c", "")] "c" = 0 ∧
    parse_float [("b", "abc")] "b" = 0 ∧
    parse_float [("a", "7")] "a" = 7 :=
  ⟨(C8_parse_float_total [("b", "abc")] "a").1 rfl,
   (C8_parse_float_total [("c", "")] "c").2.1 rfl,
   (C8_parse_float_total [("b", "abc")] "b").2.2.1 "abc" rfl rfl,
   (C8_parse_float_total [("a", "7")] "a").2.2.2 "7" 7 rfl (by decide)⟩

/-- C9: every POST to the employee-creation handler fails before any
record is committed: no submission can produce a success state, and a
submission carrying the six required fields fails precisely with the
unbound-name error on dob raised at the Employee construction. -/
theorem C9_employee_new_unbound (db : List Employee)
    (form : List (String × String)) :
    (∀ db2 : List Employee, employee_new db form ≠ Except.ok db2) ∧
    ((form.lookup "employee_id_code").isSome = true →
     (form.lookup "first_name").isSome = true →
     (form.lookup "last_name").isSome = true →
     (form.lookup "department").isSome = true →
     (form.lookup "position").isSome = true →
     (form.lookup "email").isSome = true →
      employee_new db form = Except.error (PyErr.nameError "dob")) := by
  have hE : ∃ e, employee_new db form = Except.error e := by
    unfold employee_new
    repeat' split
    all_goals exact ⟨_, rfl⟩
  obtain ⟨e, he⟩ := hE
  constructor
  · intro db2 h
    rw [he] at h
    exact Except.noConfusion h
  · intro h1 h2 h3 h4 h5 h6
    obtain ⟨v1, hv1⟩ := Option.isSome_iff_exists.mp h1
    obtain ⟨v2, hv2⟩ := Option.isSome_iff_exists.mp h2
    obtain ⟨v3, hv3⟩ := Option.isSome_iff_exists.mp h3
    obtain ⟨v4, hv4⟩ := Option.isSome_iff_exists.mp h4
    obtain ⟨v5, hv5⟩ := Option.isSome_iff_exists.mp h5
    obtain ⟨v6, hv6⟩ := Option.isSome_iff_exists.mp h6
    unfold employee_new
    rw [hv1, hv2, hv3, hv4, hv5, hv6]

/-- Witness for C9: a fully populated creation form fails with the
unbound-name error on dob. -/
theorem C9_employee_new_unbound_witness :
    employee_new []
        [("employee_id_code", "E001"), ("first_name", "A"), ("last_name", "B"),
         ("department", "D"), ("position", "P"), ("email", "a@b.c")] =
      Except.error (PyErr.nameError "dob") :=
  (C9_employee_new_unbound []
      [("employee_id_code", "E001"), ("first_name", "A"), ("last_name", "B"),
       ("department", "D"), ("position", "P"), ("email", "a@b.c")]).2
    rfl rfl rfl rfl rfl rfl

/-- C10: every payslip created through payslip creation stores
other_deductions = 0, whatever the submitted form contains. -/
theorem C10_other_deductions_always_zero (today : Date) (eid : ℕ)
    (emp : Employee) (form : List (String × String)) (ps pe : Date)
    (cb : ℕ) :
    (payslip_new today eid emp form ps pe cb).other_deductions = 0 := rfl
